import Mathlib

set_option linter.unusedVariables false

/-!
Shallow embedding of the ArcadeDB online scraper
(`src/resources/lib/scraper.py`, class `ArcadeDB`).

The `ArcadeDB` class derives from the abstract `Scraper` base class of the
external `ael` package (disk cache plumbing, status handling, default
dictionaries).  Those collaborators are not part of this repository's
sources, so they are modelled from the spec (sections 3, 4.1, 6) and marked
`Modelled from the spec:` in their doc comments.  Everything else is a
direct translation of the Python methods of `ArcadeDB`.

Python exceptions (`ValueError`, `KeyError`, `IndexError`, `TypeError`) are
modelled with `Except String`; the recoverable-error channel is the mutable
`status_dic`, modelled as an explicit `Status` value threaded through and
returned.
-/

namespace ArcadeDBSpec

/-- JSON scalar values appearing in ArcadeDB records (the fields the scraper
reads are strings or numbers). -/
inductive JVal where
  | str (s : String)
  | num (n : Int)
deriving DecidableEq, Repr

/-- Python `str()` on the scalar values we model: numbers render in decimal,
strings pass through unchanged. -/
def pyStr : JVal → String
  | JVal.str s => s
  | JVal.num n => toString n

/-- A raw game record as decoded from upstream JSON: a finite map from field
names to values (association list, first binding wins, like a dict). -/
abbrev GameRecord := List (String × JVal)

/-- Modelled from the spec: the Raw Response Payload (section 3) — the decoded
upstream answer, an ordered sequence of zero or more raw game records
(the `result` array) plus any service-level error `message`. -/
structure Payload where
  result : List GameRecord
  message : Option String
deriving DecidableEq, Repr

/-- Modelled from the spec: outcome of the external transport collaborator
`net.get_URL` combined with the abstract decoding contract of the JSON
library (section 6): the body may be missing (transport exception),
present but undecodable, or decodable JSON. -/
inductive RawBody where
  | missing
  | undecodable
  | json (p : Payload)
deriving DecidableEq, Repr

/-- Modelled from the spec: one upstream HTTP response — status code plus
(abstractly decoded) body. -/
structure NetResponse where
  http_code : Nat
  body : RawBody
deriving DecidableEq, Repr

/-- Modelled from the spec: the upstream query collaborator — a mapping from
request URL to the response `net.get_URL` would produce for it. -/
abbrev Upstream := String → NetResponse

/-- Modelled from the spec: the Status object (section 6) — a success flag and
an optional human-readable message, threaded through every operation. -/
structure Status where
  status : Bool
  msg : Option String
deriving DecidableEq, Repr

/-- Modelled from the spec: `Scraper._handle_error` — record a recoverable
failure in the Status object (success flag false, descriptive message). -/
def _handle_error (status_dic : Status) (message : String) : Status :=
  { status_dic with status := false, msg := some message }

/-- Modelled from the spec: `Scraper._handle_exception` — like
`_handle_error`, with the underlying exception detail attached (the detail
itself is abstracted away; only the user message is modelled). -/
def _handle_exception (status_dic : Status) (message : String) : Status :=
  { status_dic with status := false, msg := some message }

/-- Modelled from the spec: the Query Key (section 3) — a composite of the ROM
base identifier without extension and the platform string. -/
structure QueryKey where
  identifier : String
  platform : String
deriving DecidableEq, Repr

/-- Modelled from the spec: the disk-cache namespaces of the base class; the
core uses only the internal namespace (`Scraper.CACHE_INTERNAL`). -/
inductive CacheNamespace where
  | internal
  | candidates
  | metadata
  | assets
deriving DecidableEq, Repr

/-- Modelled from the spec: the disk cache (section 4.1) — namespaced, keyed
persistence of Raw Response Payloads. -/
abbrev DiskCache := List ((CacheNamespace × QueryKey) × Payload)

/-- Modelled from the spec: `Scraper._check_disk_cache` — the cache
`contains(namespace, key)` test. -/
def _check_disk_cache (ns : CacheNamespace) (key : QueryKey) (cache : DiskCache) : Bool :=
  (cache.lookup (ns, key)).isSome

/-- Modelled from the spec: `Scraper._retrieve_from_disk_cache` — `load`, only
legal after a positive `contains` check. -/
def _retrieve_from_disk_cache (ns : CacheNamespace) (key : QueryKey) (cache : DiskCache) :
    Option Payload :=
  cache.lookup (ns, key)

/-- Modelled from the spec: `Scraper._update_disk_cache` — `store` inserts or
overwrites the payload for (namespace, key). -/
def _update_disk_cache (ns : CacheNamespace) (key : QueryKey) (payload : Payload)
    (cache : DiskCache) : DiskCache :=
  ((ns, key), payload) :: cache

/-- Modelled from the spec: `io.FileName` — only `getBaseNoExt` (the ROM base
name without extension) is used by this scraper. -/
structure FileName where
  baseNoExt : String
deriving DecidableEq, Repr

def FileName.getBaseNoExt (f : FileName) : String := f.baseNoExt

/-- Modelled from the spec: the enumerated asset kinds from `ael.constants`
that this scraper mentions (`ASSET_*_ID`). -/
inductive AssetID where
  | BANNER
  | TITLE
  | SNAP
  | BOXFRONT
  | FLYER
deriving DecidableEq, Repr

/-- Modelled from the spec: `constants.DEFAULT_META_ESRB`, the system default
content rating. -/
def DEFAULT_META_ESRB : String := "RP (Rating Pending)"

/-- The Candidate dictionary (fields assigned by `get_candidates`). -/
structure Candidate where
  id : String
  display_name : JVal
  platform : String
  scraper_platform : String
  order : Nat
deriving DecidableEq, Repr

/-- Modelled from the spec: `Scraper._new_candidate_dic` — the default
candidate dictionary before `get_candidates` fills it in. -/
def _new_candidate_dic : Candidate :=
  { id := "", display_name := JVal.str "", platform := "", scraper_platform := "", order := 0 }

/-- The Metadata Record (fields assigned by `get_metadata`). -/
structure GameData where
  title : JVal
  year : JVal
  genre : JVal
  developer : JVal
  nplayers : JVal
  esrb : JVal
  plot : JVal
deriving DecidableEq, Repr

/-- Modelled from the spec: `Scraper._new_gamedata_dic` — the default (empty)
Metadata Record. -/
def _new_gamedata_dic : GameData :=
  { title := JVal.str "", year := JVal.str "", genre := JVal.str "",
    developer := JVal.str "", nplayers := JVal.str "", esrb := JVal.str "",
    plot := JVal.str "" }

/-- One Asset Entry (fields assigned by `_get_asset_simple`). -/
structure AssetData where
  asset_ID : AssetID
  display_name : String
  url_thumb : JVal
  url : JVal
deriving DecidableEq, Repr

/-- The scraper object's state: the disabled flag, the current cache key (the
Query Key set for the current lookup/candidate), the disk cache and the
currently set candidate. -/
structure ScraperState where
  scraper_disabled : Bool
  cache_key : QueryKey
  disk_cache : DiskCache
  candidate : Option Candidate
deriving DecidableEq, Repr

/-- Python dict subscript `r[k]` on a game record: `KeyError` when absent. -/
def getField (r : GameRecord) (k : String) : Except String JVal :=
  match r.lookup k with
  | some v => Except.ok v
  | none => Except.error ("KeyError: " ++ k)

/-- `ArcadeDB.supported_asset_list` (scraper.py lines 47-52). -/
def supported_asset_list : List AssetID :=
  [AssetID.TITLE, AssetID.SNAP, AssetID.BOXFRONT, AssetID.FLYER]

/-- `ArcadeDB.supports_asset_ID` (scraper.py lines 79-80). -/
def supports_asset_ID (asset_ID : AssetID) : Bool :=
  if asset_ID ∈ supported_asset_list then true else false

/-- `ArcadeDB._retrieve_URL_as_JSON` (scraper.py lines 284-312): check the
HTTP code (a non-200 response may carry a decodable error body whose
`message` field is surfaced, with a generic fallback when decoding or the
key lookup fails), then check for a missing body, then decode. -/
def _retrieve_URL_as_JSON (resp : NetResponse) (status_dic : Status) :
    Option Payload × Status :=
  if resp.http_code ≠ 200 then
    let error_msg :=
      match resp.body with
      | RawBody.json json_data =>
        match json_data.message with
        | some m => m
        | none => "Unknown/unspecified error."
      | _ => "Unknown/unspecified error."
    (none, _handle_error status_dic
      ("HTTP code " ++ toString resp.http_code ++ " message \"" ++ error_msg ++ "\""))
  else
    match resp.body with
    | RawBody.missing =>
      (none, _handle_error status_dic "Network error/exception in net_get_URL()")
    | RawBody.undecodable =>
      (none, _handle_exception status_dic "Error decoding JSON data from ArcadeDB.")
    | RawBody.json json_data => (some json_data, status_dic)

/-- The query URL built by `ArcadeDB._get_QUERY_MAME` (scraper.py lines
212-215). -/
def queryMameURL (game_name : String) : String :=
  "http://adb.arcadeitalia.net/service_scraper.php?ajax=query_mame"
    ++ "&game_name=" ++ game_name

/-- `ArcadeDB._get_QUERY_MAME` (scraper.py lines 208-222): build the URL, grab
it and parse the JSON (the debug dump is I/O only and not modelled). -/
def _get_QUERY_MAME (upstream : Upstream) (rombase_noext : String)
    (status_dic : Status) : Option Payload × Status :=
  let game_name := rombase_noext
  let url := queryMameURL game_name
  _retrieve_URL_as_JSON (upstream url) status_dic

/-- Result of one `get_candidates` call: the returned value (`none` models
Python `None`), the scraper state after the call, the status object after
the call, and whether the upstream collaborator was invoked. -/
structure CandidatesOutcome where
  ret : Option (List Candidate)
  state : ScraperState
  status : Status
  network_called : Bool
deriving DecidableEq, Repr

/-- `ArcadeDB.get_candidates` (scraper.py lines 88-133).  If the scraper is
disabled, return `None` silently.  Otherwise always issue the upstream
query (there is no cache check before it); on failure return `None` with
the cache untouched.  Cardinality policy on the `result` list: zero
records returns the empty list; exactly one record builds the single
candidate and stores the payload in the internal disk cache under
`self.cache_key`; more than one raises `ValueError`. -/
def get_candidates (st : ScraperState) (upstream : Upstream) (rom_FN : FileName)
    (platform : String) (status_dic : Status) : Except String CandidatesOutcome :=
  if st.scraper_disabled then
    Except.ok { ret := none, state := st, status := status_dic, network_called := false }
  else
    let rombase_noext := rom_FN.getBaseNoExt
    match _get_QUERY_MAME upstream rombase_noext status_dic with
    | (json_response_opt, status₁) =>
      if status₁.status = false then
        Except.ok { ret := none, state := st, status := status₁, network_called := true }
      else
        match json_response_opt with
        | none => Except.error "TypeError: NoneType has no subscript"
        | some json_response_dic =>
          match json_response_dic.result with
          | [] =>
            Except.ok { ret := some [], state := st, status := status₁, network_called := true }
          | [gameinfo_dic] =>
            match getField gameinfo_dic "title" with
            | Except.error e => Except.error e
            | Except.ok title =>
              Except.ok
                { ret := some [{ _new_candidate_dic with
                    id := rombase_noext
                    display_name := title
                    platform := platform
                    scraper_platform := platform
                    order := 1 }]
                  state := { st with
                    disk_cache := _update_disk_cache CacheNamespace.internal st.cache_key
                      json_response_dic st.disk_cache }
                  status := status₁
                  network_called := true }
          | _ :: _ :: _ =>
            Except.error "Unexpected number of games returned (more than one)."

/-- `ArcadeDB.get_metadata` (scraper.py lines 135-159).  Disabled scraper
returns the default record; a missing internal cache entry for the
current key raises `ValueError` (Logic error); otherwise project the
first cached record's fields into a fresh Metadata Record. -/
def get_metadata (st : ScraperState) (status_dic : Status) : Except String GameData :=
  if st.scraper_disabled then
    Except.ok _new_gamedata_dic
  else
    if _check_disk_cache CacheNamespace.internal st.cache_key st.disk_cache then
      match _retrieve_from_disk_cache CacheNamespace.internal st.cache_key st.disk_cache with
      | none => Except.error "cache entry disappeared"
      | some json_response_dic =>
        match json_response_dic.result with
        | [] => Except.error "IndexError: list index out of range"
        | gameinfo_dic :: _ => do
          let title ← getField gameinfo_dic "title"
          let year ← getField gameinfo_dic "year"
          let genre ← getField gameinfo_dic "genre"
          let manufacturer ← getField gameinfo_dic "manufacturer"
          let players ← getField gameinfo_dic "players"
          let history ← getField gameinfo_dic "history"
          Except.ok
            { _new_gamedata_dic with
                title := title
                year := year
                genre := genre
                developer := manufacturer
                nplayers := JVal.str (pyStr players)
                esrb := JVal.str DEFAULT_META_ESRB
                plot := history }
    else
      Except.error "Logic error"

/-- `ArcadeDB._get_asset_simple` (scraper.py lines 265-274): when the named
key is present in the record, build one asset dictionary with both URLs
set to that field's value; otherwise return `None`. -/
def _get_asset_simple (data_dic : GameRecord) (asset_ID : AssetID) (title_str : String)
    (key : String) : Option AssetData :=
  match data_dic.lookup key with
  | some v =>
    some { asset_ID := asset_ID, display_name := title_str, url_thumb := v, url := v }
  | none => none

/-- `ArcadeDB._retrieve_all_assets` (scraper.py lines 225-263): try the five
enabled (asset kind, label, raw field) triples in order — banner/marquee,
title, snap, boxfront/cabinet, flyer — appending each non-`None` result. -/
def _retrieve_all_assets (gameinfo_dic : GameRecord) : List AssetData :=
  ([ _get_asset_simple gameinfo_dic AssetID.BANNER "Banner (Marquee)" "url_image_marquee",
     _get_asset_simple gameinfo_dic AssetID.TITLE "Title screenshot" "url_image_title",
     _get_asset_simple gameinfo_dic AssetID.SNAP "Snap screenshot" "url_image_ingame",
     _get_asset_simple gameinfo_dic AssetID.BOXFRONT "BoxFront (Cabinet)" "url_image_cabinet",
     _get_asset_simple gameinfo_dic AssetID.FLYER "Flyer" "url_image_flyer" ]).filterMap id

/-- `ArcadeDB.get_assets` (scraper.py lines 161-185).  Disabled scraper
returns the empty list; the debug log line subscripts `self.candidate`,
raising `TypeError` when no candidate is set; a missing internal cache
entry raises `ValueError` (Logic error); otherwise derive all assets from
the first cached record and filter to the requested asset kind (returning
`None` when the status object already carries a failure). -/
def get_assets (st : ScraperState) (asset_info_id : AssetID) (status_dic : Status) :
    Except String (Option (List AssetData) × Status) :=
  if st.scraper_disabled then
    Except.ok (some [], status_dic)
  else
    match st.candidate with
    | none => Except.error "TypeError: NoneType has no subscript"
    | some _ =>
      if _check_disk_cache CacheNamespace.internal st.cache_key st.disk_cache then
        match _retrieve_from_disk_cache CacheNamespace.internal st.cache_key st.disk_cache with
        | none => Except.error "cache entry disappeared"
        | some json_response_dic =>
          match json_response_dic.result with
          | [] => Except.error "IndexError: list index out of range"
          | gameinfo_dic :: _ =>
            let all_asset_list := _retrieve_all_assets gameinfo_dic
            if status_dic.status = false then
              Except.ok (none, status_dic)
            else
              Except.ok
                (some (all_asset_list.filter (fun asset_dic => asset_dic.asset_ID == asset_info_id)),
                 status_dic)
      else
        Except.error "Logic error"

/-! Concrete example data for witnesses and counterexamples. -/

/-- A concrete raw game record shaped like the spec's literal scenario. -/
def exRecord : GameRecord :=
  [("title", JVal.str "Cadillacs and Dinosaurs (World 930201)"),
   ("year", JVal.str "1993"),
   ("genre", JVal.str "Beat-em-up"),
   ("manufacturer", JVal.str "Capcom"),
   ("players", JVal.num 4),
   ("history", JVal.str "A 1993 arcade game."),
   ("url_image_ingame", JVal.str "http://adb.example/dino_snap.png"),
   ("url_image_marquee", JVal.str "http://adb.example/dino_marquee.png")]

def exPayload : Payload := { result := [exRecord], message := none }

def exKey : QueryKey := { identifier := "dino", platform := "MAME" }

def exFN : FileName := { baseNoExt := "dino" }

def exStatus : Status := { status := true, msg := some "Scraper test was OK" }

/-- An upstream that answers every URL with the one-record payload. -/
def exUpstream : Upstream := fun _ => { http_code := 200, body := RawBody.json exPayload }

def freshState : ScraperState :=
  { scraper_disabled := false, cache_key := exKey, disk_cache := [], candidate := none }

def exCandidate : Candidate :=
  { id := "dino", display_name := JVal.str "Cadillacs and Dinosaurs (World 930201)",
    platform := "MAME", scraper_platform := "MAME", order := 1 }

/-- A state whose internal disk cache already holds the payload for `exKey`
and whose candidate has been set — the state after a successful resolution. -/
def cachedState : ScraperState :=
  { scraper_disabled := false, cache_key := exKey,
    disk_cache := [((CacheNamespace.internal, exKey), exPayload)],
    candidate := some exCandidate }

def disabledState : ScraperState :=
  { scraper_disabled := true, cache_key := exKey,
    disk_cache := [((CacheNamespace.internal, exKey), exPayload)],
    candidate := some exCandidate }

def emptyPayload : Payload := { result := [], message := none }

def emptyUpstream : Upstream := fun _ => { http_code := 200, body := RawBody.json emptyPayload }

def twoPayload : Payload := { result := [exRecord, exRecord], message := none }

def twoUpstream : Upstream := fun _ => { http_code := 200, body := RawBody.json twoPayload }

/-- An upstream failing with HTTP 503 and a decodable error body. -/
def failUpstream : Upstream := fun _ =>
  { http_code := 503, body := RawBody.json { result := [], message := some "service unavailable" } }

/-! Claim theorems. -/

/-- C1: with the scraper enabled, for every query whose upstream raw payload
contains exactly one record, `get_candidates` returns a one-element
candidate list whose `order` is 1 and whose `id` is the ROM base name
without extension, and the Raw Response Payload is stored in the internal
disk-cache namespace under the Query Key, so the cache subsequently
contains that key. -/
theorem claim_C1 (st : ScraperState) (upstream : Upstream) (rom_FN : FileName)
    (platform : String) (status_dic : Status) (p : Payload) (r : GameRecord) (t : JVal)
    (hdis : st.scraper_disabled = false)
    (hok : status_dic.status = true)
    (hkey : st.cache_key = { identifier := rom_FN.getBaseNoExt, platform := platform })
    (hresp : upstream (queryMameURL rom_FN.getBaseNoExt) =
      { http_code := 200, body := RawBody.json p })
    (hone : p.result = [r])
    (ht : r.lookup "title" = some t) :
    get_candidates st upstream rom_FN platform status_dic =
      Except.ok
        { ret := some [{ _new_candidate_dic with
            id := rom_FN.getBaseNoExt, display_name := t,
            platform := platform, scraper_platform := platform, order := 1 }]
          state := { st with disk_cache :=
            _update_disk_cache CacheNamespace.internal st.cache_key p st.disk_cache }
          status := status_dic
          network_called := true } ∧
    ({ _new_candidate_dic with
        id := rom_FN.getBaseNoExt, display_name := t,
        platform := platform, scraper_platform := platform, order := 1 } : Candidate).order = 1 ∧
    ({ _new_candidate_dic with
        id := rom_FN.getBaseNoExt, display_name := t,
        platform := platform, scraper_platform := platform, order := 1 } : Candidate).id =
      rom_FN.getBaseNoExt ∧
    _check_disk_cache CacheNamespace.internal
      { identifier := rom_FN.getBaseNoExt, platform := platform }
      (_update_disk_cache CacheNamespace.internal st.cache_key p st.disk_cache) = true ∧
    _retrieve_from_disk_cache CacheNamespace.internal
      { identifier := rom_FN.getBaseNoExt, platform := platform }
      (_update_disk_cache CacheNamespace.internal st.cache_key p st.disk_cache) = some p := by
  have hq : _get_QUERY_MAME upstream rom_FN.getBaseNoExt status_dic = (some p, status_dic) := by
    simp [_get_QUERY_MAME, _retrieve_URL_as_JSON, hresp]
  refine ⟨?_, rfl, rfl, ?_, ?_⟩
  · simp [get_candidates, hdis, hq, hok, hone, getField, ht]
  · simp [_check_disk_cache, _update_disk_cache, hkey, List.lookup]
  · simp [_retrieve_from_disk_cache, _update_disk_cache, hkey, List.lookup]

/-- C1 witness: the theorem applied at a concrete one-record query. -/
theorem claim_C1_witness :
    freshState.scraper_disabled = false ∧
    exStatus.status = true ∧
    freshState.cache_key = { identifier := exFN.getBaseNoExt, platform := "MAME" } ∧
    exUpstream (queryMameURL exFN.getBaseNoExt) =
      { http_code := 200, body := RawBody.json exPayload } ∧
    exPayload.result = [exRecord] ∧
    exRecord.lookup "title" = some (JVal.str "Cadillacs and Dinosaurs (World 930201)") ∧
    (get_candidates freshState exUpstream exFN "MAME" exStatus =
      Except.ok
        { ret := some [{ _new_candidate_dic with
            id := exFN.getBaseNoExt,
            display_name := JVal.str "Cadillacs and Dinosaurs (World 930201)",
            platform := "MAME", scraper_platform := "MAME", order := 1 }]
          state := { freshState with disk_cache := _update_disk_cache CacheNamespace.internal freshState.cache_key exPayload freshState.disk_cache }
          status := exStatus
          network_called := true } ∧
      ({ _new_candidate_dic with
          id := exFN.getBaseNoExt,
          display_name := JVal.str "Cadillacs and Dinosaurs (World 930201)",
          platform := "MAME", scraper_platform := "MAME", order := 1 } : Candidate).order = 1 ∧
      ({ _new_candidate_dic with
          id := exFN.getBaseNoExt,
          display_name := JVal.str "Cadillacs and Dinosaurs (World 930201)",
          platform := "MAME", scraper_platform := "MAME", order := 1 } : Candidate).id =
        exFN.getBaseNoExt ∧
      _check_disk_cache CacheNamespace.internal
        { identifier := exFN.getBaseNoExt, platform := "MAME" }
        (_update_disk_cache CacheNamespace.internal freshState.cache_key exPayload
          freshState.disk_cache) = true ∧
      _retrieve_from_disk_cache CacheNamespace.internal
        { identifier := exFN.getBaseNoExt, platform := "MAME" }
        (_update_disk_cache CacheNamespace.internal freshState.cache_key exPayload
          freshState.disk_cache) = some exPayload) :=
  ⟨rfl, rfl, rfl, rfl, rfl, rfl,
    claim_C1 freshState exUpstream exFN "MAME" exStatus exPayload exRecord
      (JVal.str "Cadillacs and Dinosaurs (World 930201)") rfl rfl rfl rfl rfl rfl⟩

/-- C2: with the scraper enabled, for every query whose upstream raw payload
contains two or more records, `get_candidates` raises the fatal
`ValueError` instead of reporting through the Status object; no candidate
list is returned and no record is silently picked. -/
theorem claim_C2 (st : ScraperState) (upstream : Upstream) (rom_FN : FileName)
    (platform : String) (status_dic : Status) (p : Payload)
    (g₁ g₂ : GameRecord) (gs : List GameRecord)
    (hdis : st.scraper_disabled = false)
    (hok : status_dic.status = true)
    (hresp : upstream (queryMameURL rom_FN.getBaseNoExt) =
      { http_code := 200, body := RawBody.json p })
    (hmany : p.result = g₁ :: g₂ :: gs) :
    get_candidates st upstream rom_FN platform status_dic =
      Except.error "Unexpected number of games returned (more than one)." := by
  have hq : _get_QUERY_MAME upstream rom_FN.getBaseNoExt status_dic = (some p, status_dic) := by
    simp [_get_QUERY_MAME, _retrieve_URL_as_JSON, hresp]
  simp [get_candidates, hdis, hq, hok, hmany]

/-- C2 witness: the theorem applied at a concrete two-record query. -/
theorem claim_C2_witness :
    freshState.scraper_disabled = false ∧
    exStatus.status = true ∧
    twoUpstream (queryMameURL exFN.getBaseNoExt) =
      { http_code := 200, body := RawBody.json twoPayload } ∧
    twoPayload.result = exRecord :: exRecord :: [] ∧
    get_candidates freshState twoUpstream exFN "MAME" exStatus =
      Except.error "Unexpected number of games returned (more than one)." :=
  ⟨rfl, rfl, rfl, rfl,
    claim_C2 freshState twoUpstream exFN "MAME" exStatus twoPayload exRecord exRecord []
      rfl rfl rfl rfl⟩

/-- C6: with the scraper enabled, for every query whose upstream raw payload
contains zero records, `get_candidates` returns the empty candidate list
and the Status object is unchanged (in particular still successful). -/
theorem claim_C6 (st : ScraperState) (upstream : Upstream) (rom_FN : FileName)
    (platform : String) (status_dic : Status) (p : Payload)
    (hdis : st.scraper_disabled = false)
    (hok : status_dic.status = true)
    (hresp : upstream (queryMameURL rom_FN.getBaseNoExt) =
      { http_code := 200, body := RawBody.json p })
    (hzero : p.result = []) :
    get_candidates st upstream rom_FN platform status_dic =
      Except.ok { ret := some [], state := st, status := status_dic, network_called := true } := by
  have hq : _get_QUERY_MAME upstream rom_FN.getBaseNoExt status_dic = (some p, status_dic) := by
    simp [_get_QUERY_MAME, _retrieve_URL_as_JSON, hresp]
  simp [get_candidates, hdis, hq, hok, hzero]

/-- C6 witness: the theorem applied at a concrete zero-record query. -/
theorem claim_C6_witness :
    freshState.scraper_disabled = false ∧
    exStatus.status = true ∧
    emptyUpstream (queryMameURL exFN.getBaseNoExt) =
      { http_code := 200, body := RawBody.json emptyPayload } ∧
    emptyPayload.result = [] ∧
    get_candidates freshState emptyUpstream exFN "MAME" exStatus =
      Except.ok { ret := some [], state := freshState, status := exStatus,
                  network_called := true } :=
  ⟨rfl, rfl, rfl, rfl,
    claim_C6 freshState emptyUpstream exFN "MAME" exStatus emptyPayload rfl rfl rfl rfl⟩

/-- C9: with the disabled-scraper flag set, `get_candidates` returns `None`
with the Status object unmodified and no upstream call, `get_metadata`
returns the default empty Metadata Record, and `get_assets` returns the
empty list — in all three cases for every cache content and every
upstream (so neither the network nor the cache is consulted) and with
the scraper state unchanged. -/
theorem claim_C9 (st : ScraperState) (upstream : Upstream) (rom_FN : FileName)
    (platform : String) (aid : AssetID) (status_dic : Status)
    (hdis : st.scraper_disabled = true) :
    get_candidates st upstream rom_FN platform status_dic =
      Except.ok { ret := none, state := st, status := status_dic, network_called := false } ∧
    get_metadata st status_dic = Except.ok _new_gamedata_dic ∧
    get_assets st aid status_dic = Except.ok (some [], status_dic) := by
  refine ⟨?_, ?_, ?_⟩ <;> simp [get_candidates, get_metadata, get_assets, hdis]

/-- C9 witness: the theorem applied at a concrete disabled state. -/
theorem claim_C9_witness :
    disabledState.scraper_disabled = true ∧
    (get_candidates disabledState exUpstream exFN "MAME" exStatus =
      Except.ok { ret := none, state := disabledState, status := exStatus,
                  network_called := false } ∧
    get_metadata disabledState exStatus = Except.ok _new_gamedata_dic ∧
    get_assets disabledState AssetID.SNAP exStatus = Except.ok (some [], exStatus)) :=
  ⟨rfl, claim_C9 disabledState exUpstream exFN "MAME" AssetID.SNAP exStatus rfl⟩

/-- A state with a candidate set but an empty disk cache. -/
def uncachedState : ScraperState :=
  { scraper_disabled := false, cache_key := exKey, disk_cache := [], candidate := some exCandidate }

/-- C3 counterexample: a state whose internal disk cache already holds the
payload for the current Query Key, yet `get_candidates` still invokes the
upstream collaborator (`network_called = true`) — there is no cache check
before the upstream query in `get_candidates`. -/
theorem claim_C3_counterexample :
    _check_disk_cache CacheNamespace.internal cachedState.cache_key cachedState.disk_cache = true ∧
    cachedState.scraper_disabled = false ∧
    get_candidates cachedState exUpstream exFN "MAME" exStatus =
      Except.ok
        { ret := some [exCandidate]
          state := { cachedState with disk_cache := _update_disk_cache CacheNamespace.internal exKey exPayload cachedState.disk_cache }
          status := exStatus
          network_called := true } :=
  ⟨rfl, rfl, rfl⟩

/-- C3 (amended): an enabled `get_candidates` call always invokes the upstream
collaborator, whether or not the Query Key is already cached — every
non-raising call reports `network_called = true`; the freshly fetched
payload, not the cached one, feeds the cardinality check. -/
theorem claim_C3_amended (st : ScraperState) (upstream : Upstream) (rom_FN : FileName)
    (platform : String) (status_dic : Status) (out : CandidatesOutcome)
    (hdis : st.scraper_disabled = false)
    (hout : get_candidates st upstream rom_FN platform status_dic = Except.ok out) :
    out.network_called = true := by
  unfold get_candidates at hout
  rw [hdis] at hout
  simp only [Bool.false_eq_true, if_false] at hout
  split at hout
  · injection hout with h
    subst h
    rfl
  · split at hout
    · exact absurd hout (by simp)
    · split at hout
      · injection hout with h
        subst h
        rfl
      · split at hout
        · exact absurd hout (by simp)
        · injection hout with h
          subst h
          rfl
      · exact absurd hout (by simp)

/-- C3 amended witness: the amended theorem applied at a concrete call whose
Query Key is already cached. -/
theorem claim_C3_witness :
    cachedState.scraper_disabled = false ∧
    ({ ret := some [exCandidate]
       state := { cachedState with disk_cache := _update_disk_cache CacheNamespace.internal exKey exPayload cachedState.disk_cache }
       status := exStatus
       network_called := true } : CandidatesOutcome).network_called = true :=
  ⟨rfl, claim_C3_amended cachedState exUpstream exFN "MAME" exStatus
    { ret := some [exCandidate]
      state := { cachedState with disk_cache := _update_disk_cache CacheNamespace.internal exKey exPayload cachedState.disk_cache }
      status := exStatus
      network_called := true } rfl rfl⟩

/-- C4: with the scraper enabled, for every upstream failure — a non-200 HTTP
response or a missing or undecodable response body — `get_candidates`
sets the Status object to failure with a descriptive message and returns
`None`, with the scraper state (in particular the disk cache) unchanged;
when a non-200 response carries a decodable JSON body with a `message`
field, that message is surfaced in the Status message, and when a non-200
body is not decodable JSON the generic fallback message is used. -/
theorem claim_C4 (st : ScraperState) (upstream : Upstream) (rom_FN : FileName)
    (platform : String) (status_dic : Status) (resp : NetResponse)
    (hdis : st.scraper_disabled = false)
    (hok : status_dic.status = true)
    (hresp : upstream (queryMameURL rom_FN.getBaseNoExt) = resp)
    (hfail : resp.http_code ≠ 200 ∨ resp.body = RawBody.missing ∨
      resp.body = RawBody.undecodable) :
    (get_candidates st upstream rom_FN platform status_dic =
      Except.ok { ret := none, state := st,
                  status := (_retrieve_URL_as_JSON resp status_dic).2,
                  network_called := true } ∧
    (_retrieve_URL_as_JSON resp status_dic).2.status = false ∧
    ((_retrieve_URL_as_JSON resp status_dic).2.msg).isSome = true) ∧
    (∀ q m, resp.http_code ≠ 200 → resp.body = RawBody.json q → q.message = some m →
      (_retrieve_URL_as_JSON resp status_dic).2.msg =
        some ("HTTP code " ++ toString resp.http_code ++ " message \"" ++ m ++ "\"")) ∧
    (resp.http_code ≠ 200 → (∀ q, resp.body ≠ RawBody.json q) →
      (_retrieve_URL_as_JSON resp status_dic).2.msg =
        some ("HTTP code " ++ toString resp.http_code ++ " message \"" ++
          "Unknown/unspecified error." ++ "\"")) := by
  have hshape : _retrieve_URL_as_JSON resp status_dic =
      (none, (_retrieve_URL_as_JSON resp status_dic).2) ∧
      (_retrieve_URL_as_JSON resp status_dic).2.status = false ∧
      ((_retrieve_URL_as_JSON resp status_dic).2.msg).isSome = true := by
    by_cases hc : resp.http_code = 200
    · rcases hfail with h | h | h
      · exact absurd hc h
      · unfold _retrieve_URL_as_JSON
        rw [if_neg (by simpa using hc), h]
        exact ⟨rfl, rfl, rfl⟩
      · unfold _retrieve_URL_as_JSON
        rw [if_neg (by simpa using hc), h]
        exact ⟨rfl, rfl, rfl⟩
    · unfold _retrieve_URL_as_JSON
      rw [if_pos (by simpa using hc)]
      exact ⟨rfl, rfl, rfl⟩
  refine ⟨⟨?_, hshape.2.1, hshape.2.2⟩, ?_, ?_⟩
  · have hq : _get_QUERY_MAME upstream rom_FN.getBaseNoExt status_dic =
        (none, (_retrieve_URL_as_JSON resp status_dic).2) := by
      simp only [_get_QUERY_MAME, hresp]
      exact hshape.1
    simp [get_candidates, hdis, hq, hshape.2.1]
  · intro q m hc hb hm
    unfold _retrieve_URL_as_JSON
    rw [if_pos (by simpa using hc), hb]
    simp [hm, _handle_error]
  · intro hc hnb
    unfold _retrieve_URL_as_JSON
    rw [if_pos (by simpa using hc)]
    cases hb : resp.body with
    | json q => exact absurd hb (hnb q)
    | missing => simp [_handle_error]
    | undecodable => simp [_handle_error]

/-- C4 witness: the theorem applied at a concrete HTTP 503 failure whose body
carries the message `service unavailable`. -/
theorem claim_C4_witness :
    freshState.scraper_disabled = false ∧
    exStatus.status = true ∧
    (failUpstream (queryMameURL exFN.getBaseNoExt)).http_code ≠ 200 ∧
    (get_candidates freshState failUpstream exFN "MAME" exStatus =
      Except.ok { ret := none, state := freshState,
                  status := (_retrieve_URL_as_JSON (failUpstream (queryMameURL exFN.getBaseNoExt)) exStatus).2,
                  network_called := true } ∧
    (_retrieve_URL_as_JSON (failUpstream (queryMameURL exFN.getBaseNoExt)) exStatus).2.status = false) ∧
    (_retrieve_URL_as_JSON (failUpstream (queryMameURL exFN.getBaseNoExt)) exStatus).2.msg =
      some ("HTTP code " ++ toString (failUpstream (queryMameURL exFN.getBaseNoExt)).http_code ++
        " message \"" ++ "service unavailable" ++ "\"") := by
  have h := claim_C4 freshState failUpstream exFN "MAME" exStatus
    (failUpstream (queryMameURL exFN.getBaseNoExt)) rfl rfl rfl (Or.inl (by decide))
  exact ⟨rfl, rfl, by decide, ⟨h.1.1, h.1.2.1⟩,
    h.2.1 { result := [], message := some "service unavailable" } "service unavailable"
      (by decide) rfl rfl⟩

/-- C5: with the scraper enabled and a candidate set, when the current Query
Key is absent from the internal disk-cache namespace, both `get_metadata`
and `get_assets` raise the `ValueError` Logic error instead of using the
Status object; neither takes the upstream collaborator as an input at
all, so neither can issue its own upstream query. -/
theorem claim_C5 (st : ScraperState) (aid : AssetID) (status_dic : Status) (c : Candidate)
    (hdis : st.scraper_disabled = false)
    (hcand : st.candidate = some c)
    (hmiss : _check_disk_cache CacheNamespace.internal st.cache_key st.disk_cache = false) :
    get_metadata st status_dic = Except.error "Logic error" ∧
    get_assets st aid status_dic = Except.error "Logic error" := by
  constructor
  · simp [get_metadata, hdis, hmiss]
  · simp [get_assets, hdis, hcand, hmiss]

/-- C5 witness: the theorem applied at a concrete state with a set candidate
and an empty disk cache. -/
theorem claim_C5_witness :
    uncachedState.scraper_disabled = false ∧
    uncachedState.candidate = some exCandidate ∧
    _check_disk_cache CacheNamespace.internal uncachedState.cache_key
      uncachedState.disk_cache = false ∧
    (get_metadata uncachedState exStatus = Except.error "Logic error" ∧
     get_assets uncachedState AssetID.SNAP exStatus = Except.error "Logic error") :=
  ⟨rfl, rfl, rfl, claim_C5 uncachedState AssetID.SNAP exStatus exCandidate rfl rfl rfl⟩

/-- C7: with the scraper enabled and the Query Key cached, `get_metadata` is a
straight structural projection of the first cached record: title, year
and genre are copied verbatim, developer is the record's `manufacturer`
field, the player count is the numeric `players` field converted to a
string, plot is the `history` field, and the content rating is always
the `DEFAULT_META_ESRB` constant. -/
theorem claim_C7 (st : ScraperState) (status_dic : Status) (p : Payload)
    (r : GameRecord) (rest : List GameRecord) (t y g m h : JVal) (n : Int)
    (hdis : st.scraper_disabled = false)
    (hcache : _retrieve_from_disk_cache CacheNamespace.internal st.cache_key
      st.disk_cache = some p)
    (hres : p.result = r :: rest)
    (ht : r.lookup "title" = some t)
    (hy : r.lookup "year" = some y)
    (hg : r.lookup "genre" = some g)
    (hm : r.lookup "manufacturer" = some m)
    (hn : r.lookup "players" = some (JVal.num n))
    (hh : r.lookup "history" = some h) :
    get_metadata st status_dic =
      Except.ok { title := t, year := y, genre := g, developer := m,
                  nplayers := JVal.str (toString n),
                  esrb := JVal.str DEFAULT_META_ESRB, plot := h } := by
  have hchk : _check_disk_cache CacheNamespace.internal st.cache_key st.disk_cache = true := by
    unfold _check_disk_cache
    unfold _retrieve_from_disk_cache at hcache
    rw [hcache]
    rfl
  simp [get_metadata, hdis, hchk, hcache, hres, getField, ht, hy, hg, hm, hn, hh, pyStr]
  rfl

/-- C7 witness: the theorem applied at a concrete cached record. -/
theorem claim_C7_witness :
    cachedState.scraper_disabled = false ∧
    _retrieve_from_disk_cache CacheNamespace.internal cachedState.cache_key
      cachedState.disk_cache = some exPayload ∧
    exPayload.result = exRecord :: [] ∧
    exRecord.lookup "players" = some (JVal.num 4) ∧
    exRecord.lookup "manufacturer" = some (JVal.str "Capcom") ∧
    get_metadata cachedState exStatus =
      Except.ok { title := JVal.str "Cadillacs and Dinosaurs (World 930201)",
                  year := JVal.str "1993", genre := JVal.str "Beat-em-up",
                  developer := JVal.str "Capcom",
                  nplayers := JVal.str (toString (4 : Int)),
                  esrb := JVal.str DEFAULT_META_ESRB,
                  plot := JVal.str "A 1993 arcade game." } :=
  ⟨rfl, rfl, rfl, rfl, rfl,
    claim_C7 cachedState exStatus exPayload exRecord []
      (JVal.str "Cadillacs and Dinosaurs (World 930201)") (JVal.str "1993")
      (JVal.str "Beat-em-up") (JVal.str "Capcom") (JVal.str "A 1993 arcade game.") 4
      rfl rfl rfl rfl rfl rfl rfl rfl rfl⟩

/-- The fixed (asset kind, display label, raw-field name) derivation triples of
`_retrieve_all_assets`, in source order. -/
def assetTriples : List (AssetID × String × String) :=
  [(AssetID.BANNER, "Banner (Marquee)", "url_image_marquee"),
   (AssetID.TITLE, "Title screenshot", "url_image_title"),
   (AssetID.SNAP, "Snap screenshot", "url_image_ingame"),
   (AssetID.BOXFRONT, "BoxFront (Cabinet)", "url_image_cabinet"),
   (AssetID.FLYER, "Flyer", "url_image_flyer")]

/-- One asset probe equals the map over the raw field lookup: a present field
emits one entry with both URLs set to the field's value, an absent field
is skipped. -/
theorem _get_asset_simple_eq (r : GameRecord) (aID : AssetID) (lbl key : String) :
    _get_asset_simple r aID lbl key = (r.lookup key).map
      (fun v => { asset_ID := aID, display_name := lbl, url_thumb := v, url := v }) := by
  unfold _get_asset_simple
  cases r.lookup key <;> rfl

/-- C8: with the scraper enabled and the Query Key cached, `get_assets` always
computes the full derivation over the five fixed (asset kind, raw field,
label) triples — emitting, for each raw field present, one Asset Entry
whose thumbnail URL and full URL both equal that field's value verbatim
and skipping absent fields — and returns only the entries whose asset
kind equals the requested kind. -/
theorem claim_C8 (st : ScraperState) (aid : AssetID) (status_dic : Status) (p : Payload)
    (r : GameRecord) (rest : List GameRecord) (c : Candidate)
    (hdis : st.scraper_disabled = false)
    (hcand : st.candidate = some c)
    (hok : status_dic.status = true)
    (hcache : _retrieve_from_disk_cache CacheNamespace.internal st.cache_key
      st.disk_cache = some p)
    (hres : p.result = r :: rest) :
    get_assets st aid status_dic =
      Except.ok (some ((_retrieve_all_assets r).filter
        (fun asset_dic => asset_dic.asset_ID == aid)), status_dic) ∧
    _retrieve_all_assets r =
      assetTriples.filterMap (fun tr => (r.lookup tr.2.2).map
        (fun v => { asset_ID := tr.1, display_name := tr.2.1, url_thumb := v, url := v })) := by
  have hchk : _check_disk_cache CacheNamespace.internal st.cache_key st.disk_cache = true := by
    unfold _check_disk_cache
    unfold _retrieve_from_disk_cache at hcache
    rw [hcache]
    rfl
  constructor
  · simp [get_assets, hdis, hcand, hchk, hcache, hres, hok]
  · simp [_retrieve_all_assets, assetTriples, _get_asset_simple_eq, List.filterMap_cons]

/-- C8 witness: the theorem applied at a concrete cached record and the snap
asset kind. -/
theorem claim_C8_witness :
    cachedState.scraper_disabled = false ∧
    cachedState.candidate = some exCandidate ∧
    exStatus.status = true ∧
    _retrieve_from_disk_cache CacheNamespace.internal cachedState.cache_key
      cachedState.disk_cache = some exPayload ∧
    exPayload.result = exRecord :: [] ∧
    (get_assets cachedState AssetID.SNAP exStatus =
      Except.ok (some ((_retrieve_all_assets exRecord).filter
        (fun asset_dic => asset_dic.asset_ID == AssetID.SNAP)), exStatus) ∧
    _retrieve_all_assets exRecord =
      assetTriples.filterMap (fun tr => (exRecord.lookup tr.2.2).map
        (fun v => { asset_ID := tr.1, display_name := tr.2.1, url_thumb := v, url := v }))) :=
  ⟨rfl, rfl, rfl, rfl, rfl,
    claim_C8 cachedState AssetID.SNAP exStatus exPayload exRecord [] exCandidate
      rfl rfl rfl rfl rfl⟩

/-- C10: with the scraper enabled and a cached record containing the
`url_image_marquee` field, `get_assets` called with the banner asset kind
returns a non-empty list containing the banner/marquee Asset Entry, even
though `supports_asset_ID` answers false for the banner kind — the
derivation set and the advertised capability set disagree. -/
theorem claim_C10 (st : ScraperState) (status_dic : Status) (p : Payload)
    (r : GameRecord) (rest : List GameRecord) (c : Candidate) (v : JVal)
    (hdis : st.scraper_disabled = false)
    (hcand : st.candidate = some c)
    (hok : status_dic.status = true)
    (hcache : _retrieve_from_disk_cache CacheNamespace.internal st.cache_key
      st.disk_cache = some p)
    (hres : p.result = r :: rest)
    (hmar : r.lookup "url_image_marquee" = some v) :
    supports_asset_ID AssetID.BANNER = false ∧
    get_assets st AssetID.BANNER status_dic =
      Except.ok (some ((_retrieve_all_assets r).filter
        (fun asset_dic => asset_dic.asset_ID == AssetID.BANNER)), status_dic) ∧
    ({ asset_ID := AssetID.BANNER, display_name := "Banner (Marquee)",
       url_thumb := v, url := v } : AssetData) ∈
      (_retrieve_all_assets r).filter (fun asset_dic => asset_dic.asset_ID == AssetID.BANNER) ∧
    (_retrieve_all_assets r).filter (fun asset_dic => asset_dic.asset_ID == AssetID.BANNER) ≠ [] := by
  have hchk : _check_disk_cache CacheNamespace.internal st.cache_key st.disk_cache = true := by
    unfold _check_disk_cache
    unfold _retrieve_from_disk_cache at hcache
    rw [hcache]
    rfl
  have hhead : _retrieve_all_assets r =
      { asset_ID := AssetID.BANNER, display_name := "Banner (Marquee)",
        url_thumb := v, url := v } ::
      ([ _get_asset_simple r AssetID.TITLE "Title screenshot" "url_image_title",
         _get_asset_simple r AssetID.SNAP "Snap screenshot" "url_image_ingame",
         _get_asset_simple r AssetID.BOXFRONT "BoxFront (Cabinet)" "url_image_cabinet",
         _get_asset_simple r AssetID.FLYER "Flyer" "url_image_flyer" ]).filterMap id := by
    simp [_retrieve_all_assets, _get_asset_simple, hmar]
  have hfil : (_retrieve_all_assets r).filter
      (fun asset_dic => asset_dic.asset_ID == AssetID.BANNER) =
      { asset_ID := AssetID.BANNER, display_name := "Banner (Marquee)",
        url_thumb := v, url := v } ::
      (([ _get_asset_simple r AssetID.TITLE "Title screenshot" "url_image_title",
          _get_asset_simple r AssetID.SNAP "Snap screenshot" "url_image_ingame",
          _get_asset_simple r AssetID.BOXFRONT "BoxFront (Cabinet)" "url_image_cabinet",
          _get_asset_simple r AssetID.FLYER "Flyer" "url_image_flyer" ]).filterMap id).filter
        (fun asset_dic => asset_dic.asset_ID == AssetID.BANNER) := by
    rw [hhead]
    rfl
  refine ⟨rfl, ?_, ?_, ?_⟩
  · simp [get_assets, hdis, hcand, hchk, hcache, hres, hok]
  · rw [hfil]
    exact List.mem_cons_self _ _
  · rw [hfil]
    exact List.cons_ne_nil _ _

/-- C10 witness: the theorem applied at a concrete cached record carrying a
marquee image URL. -/
theorem claim_C10_witness :
    cachedState.scraper_disabled = false ∧
    cachedState.candidate = some exCandidate ∧
    exStatus.status = true ∧
    _retrieve_from_disk_cache CacheNamespace.internal cachedState.cache_key
      cachedState.disk_cache = some exPayload ∧
    exPayload.result = exRecord :: [] ∧
    exRecord.lookup "url_image_marquee" = some (JVal.str "http://adb.example/dino_marquee.png") ∧
    (supports_asset_ID AssetID.BANNER = false ∧
    get_assets cachedState AssetID.BANNER exStatus =
      Except.ok (some ((_retrieve_all_assets exRecord).filter
        (fun asset_dic => asset_dic.asset_ID == AssetID.BANNER)), exStatus) ∧
    ({ asset_ID := AssetID.BANNER, display_name := "Banner (Marquee)",
       url_thumb := JVal.str "http://adb.example/dino_marquee.png",
       url := JVal.str "http://adb.example/dino_marquee.png" } : AssetData) ∈
      (_retrieve_all_assets exRecord).filter
        (fun asset_dic => asset_dic.asset_ID == AssetID.BANNER) ∧
    (_retrieve_all_assets exRecord).filter
      (fun asset_dic => asset_dic.asset_ID == AssetID.BANNER) ≠ []) :=
  ⟨rfl, rfl, rfl, rfl, rfl, rfl,
    claim_C10 cachedState exStatus exPayload exRecord [] exCandidate
      (JVal.str "http://adb.example/dino_marquee.png") rfl rfl rfl rfl rfl rfl⟩

end ArcadeDBSpec
